import Mathlib

/-!
Verification development for the voxkey Wayland dictation daemon.

Each definition below is a shallow embedding of a function of the Rust
sources (`src/state.rs`, `src/injector.rs`, `src/streaming.rs`,
`src/main.rs`, `src/transcriber.rs`, `src/persistence.rs`, `src/config.rs`,
`voxkey-ipc/src/lib.rs`).  Effectful operations (file system, subprocesses,
HTTP, WebSocket, portal calls) are made explicit: the file system is passed
as a value, and the outcome of each external call is a parameter of the
embedded function, so every embedded function is pure and executable.
-/

set_option autoImplicit false

namespace Voxkey

/-! ## State machine (`src/state.rs`) -/

/-- The daemon's operational states (`enum State` in `src/state.rs`). -/
inductive State where
  | Idle
  | Recording
  | Streaming
  | Transcribing
  | Injecting
  | RecoveringSession
  deriving DecidableEq, Repr, Fintype

/-- Events that trigger state transitions (`enum Event` in `src/state.rs`). -/
inductive Event where
  | Activated
  | Deactivated
  | TranscriptReady
  | InjectionDone
  | Error
  | Recovered
  deriving DecidableEq, Repr, Fintype

/-- Embedding of `State::transition` from `src/state.rs` (lines 45-94),
with the match arms in source order.  Returns the new state if the
transition is valid, or `none` if the event is ignored in the current
state. -/
def State.transition (s : State) (event : Event) : Option State :=
  match s, event with
  | State.Idle, Event.Activated => some State.Recording
  | State.Recording, Event.Deactivated => some State.Transcribing
  | State.Streaming, Event.Deactivated => some State.Transcribing
  | State.Transcribing, Event.TranscriptReady => some State.Injecting
  | State.Injecting, Event.InjectionDone => some State.Idle
  | State.Transcribing, Event.InjectionDone => some State.Idle
  | State.Streaming, Event.InjectionDone => some State.Idle
  | _, Event.Error => some State.RecoveringSession
  | State.RecoveringSession, Event.Recovered => some State.Idle
  | State.Recording, Event.Activated => none
  | State.Streaming, Event.Activated => none
  | State.Idle, Event.Deactivated => none
  | State.Transcribing, Event.Deactivated => none
  | State.Injecting, Event.Deactivated => none
  | State.RecoveringSession, Event.Deactivated => none
  | State.Injecting, Event.Activated => some State.Recording
  | State.Transcribing, Event.Activated => none
  | State.RecoveringSession, Event.Activated => none
  | _, _ => none

/-- The transition table of spec section 4.1, written row by row from the
spec's words (not from the source): ten rows, with the `any + Error ->
RecoveringSession` row covering every state, and every unlisted pair a
no-op (`none`).  This is the spec side of the refinement claim C1. -/
def specTransitionTable (s : State) (e : Event) : Option State :=
  match e with
  | Event.Error => some State.RecoveringSession
  | _ =>
    match s, e with
    | State.Idle, Event.Activated => some State.Recording
    | State.Recording, Event.Deactivated => some State.Transcribing
    | State.Streaming, Event.Deactivated => some State.Transcribing
    | State.Transcribing, Event.TranscriptReady => some State.Injecting
    | State.Injecting, Event.InjectionDone => some State.Idle
    | State.Transcribing, Event.InjectionDone => some State.Idle
    | State.Streaming, Event.InjectionDone => some State.Idle
    | State.Injecting, Event.Activated => some State.Recording
    | State.RecoveringSession, Event.Recovered => some State.Idle
    | _, _ => none

/-- C1: for every state and every event, `State::transition` returns
`some s'` exactly when the pair appears as a row of the spec section 4.1
transition table (with `any + Error -> RecoveringSession` covering every
state, including `RecoveringSession`), and `none` for every pair the table
does not list. -/
theorem transition_matches_spec_table :
    ∀ (s : State) (e : Event), State.transition s e = specTransitionTable s e := by
  decide

/-! ## Shared state hub (`src/dbus.rs`, fields used by the session loop) -/

/-- The fields of the shared state hub that the injector, the streaming
session and the session loop mutate.  `state` is the published daemon
state, written through `update_state`. -/
structure HubState where
  state : State
  lastTranscript : String
  lastError : String
  pending_injection : Option String
  portal_connected : Bool
  deriving DecidableEq, Repr

/-! ## Injector (`src/injector.rs`) -/

/-- Classification of an injection failure as the spec describes it:
portal-class (session unusable) versus local.  The source's `paste_text`
returns a type-erased `Box<dyn Error>`; we tag each error with the class
it would have so that the handling code's (in)difference to the class can
be stated. -/
inductive InjectError where
  | portal (msg : String)
  | localErr (msg : String)
  deriving DecidableEq, Repr

/-- Embedding of one iteration of the background task spawned in
`Injector::new` (`src/injector.rs` lines 39-54): after dequeuing `text`
the task sends `TranscriptReady`, runs `paste_text` (whose outcome is the
parameter `pasteResult`), and on `Ok` sends `InjectionDone` while on *any*
`Err` it stashes the full text into the hub's pending-injection holdover
and sends `Error`.  The source matches only on `Ok`/`Err`; it never
inspects the error, so the returned pair is the same for portal-class and
local errors. -/
def injectorProcessItem (shared : HubState) (text : String)
    (pasteResult : Except InjectError Unit) : HubState × List Event :=
  match pasteResult with
  | Except.ok _ => (shared, [Event.TranscriptReady, Event.InjectionDone])
  | Except.error _ =>
      ({ shared with pending_injection := some text },
       [Event.TranscriptReady, Event.Error])

/-- C2 (code evaluated at the failing input): for a *local* injection
failure (`wl-copy failed`, a non-portal error), the injector's background
task stashes the text into the pending-injection holdover and emits
`Error` — exactly the portal-class handling — instead of recording the
error and emitting `InjectionDone` as the spec requires for local
errors. -/
theorem injector_local_error_emits_error :
    injectorProcessItem
        { state := State.Injecting, lastTranscript := "", lastError := "",
          pending_injection := none, portal_connected := true }
        "hello world"
        (Except.error (InjectError.localErr "wl-copy failed")) =
      ({ state := State.Injecting, lastTranscript := "", lastError := "",
         pending_injection := some "hello world", portal_connected := true },
       [Event.TranscriptReady, Event.Error]) ∧
    [Event.TranscriptReady, Event.Error] ≠
      [Event.TranscriptReady, Event.InjectionDone] := by
  exact ⟨rfl, by decide⟩

/-! ## Streaming session (`src/streaming.rs`) -/

/-- A parsed server frame (`struct ServerMessage` in `src/streaming.rs`):
the `type` field and the optional `text` field. -/
structure ServerMessage where
  type_ : String
  text : Option String
  deriving DecidableEq, Repr

/-- One outcome of `ws_source.next()` in the main loop of
`run_streaming_session`: a parsed text frame (with the raw frame kept for
the `error` branch's fallback), a close frame, some other frame kind, a
transport error, or end of stream. -/
inductive WsEvent where
  | msg (raw : String) (m : ServerMessage)
  | close
  | otherFrame
  | transportError (e : String)
  | streamEnd
  deriving DecidableEq, Repr

/-- Outcome of injecting one delta inside the streaming loop; the source
matches `injector::inject_text`'s error as `Portal` or `Local`. -/
inductive InjectOutcome where
  | ok
  | portalErr (e : String)
  | localErr (e : String)
  deriving DecidableEq, Repr

/-- Result of processing one WebSocket event in the main loop of
`run_streaming_session`: keep looping with the accumulated transcript,
return `Ok` (optionally publishing the accumulated transcript as
`last_transcript`, always followed by sending `InjectionDone`), or return
`Err` with the given message. -/
inductive StreamStep where
  | continueLoop (acc : String)
  | finished (publish : Option String)
  | failed (err : String)
  deriving DecidableEq, Repr

/-- Embedding of the `ws_msg = ws_source.next()` branch of the main loop
of `run_streaming_session` (`src/streaming.rs` lines 134-191).  `acc` is
`accumulated_transcript` and `inject` gives the outcome of
`injector::inject_text` on a delta. -/
def handleWsEvent (acc : String) (ev : WsEvent)
    (inject : String → InjectOutcome) : StreamStep :=
  match ev with
  | WsEvent.msg raw m =>
    if m.type_ = "transcription.text.delta" then
      match m.text with
      | some delta =>
        match inject delta with
        | InjectOutcome.portalErr e =>
            StreamStep.failed ("Portal error during streaming injection: " ++ e)
        | InjectOutcome.localErr _ => StreamStep.continueLoop (acc ++ delta)
        | InjectOutcome.ok => StreamStep.continueLoop (acc ++ delta)
      | none => StreamStep.continueLoop acc
    else if m.type_ = "transcription.done" then
      StreamStep.finished (if acc.isEmpty then none else some acc)
    else if m.type_ = "error" then
      StreamStep.failed ("Streaming API error: " ++ m.text.getD raw)
    else
      StreamStep.continueLoop acc
  | WsEvent.close => StreamStep.finished (if acc.isEmpty then none else some acc)
  | WsEvent.otherFrame => StreamStep.continueLoop acc
  | WsEvent.transportError e => StreamStep.failed e
  | WsEvent.streamEnd => StreamStep.finished none

/-- Embedding of the error handling wrapped around
`streaming::run_streaming_session` in the task spawned by `run_session`
(`src/main.rs` lines 239-254): on `Ok` the task does nothing further; on
`Err(e)` it records `Streaming error: {e}` into the hub's `last_error` and
sends `InjectionDone` into the state-machine event channel.  It does not
send `Error`, does not clear `portal_connected`, and does not make
`run_session` return an error. -/
def streamingTaskOnResult (shared : HubState) (r : Except String Unit) :
    HubState × List Event :=
  match r with
  | Except.ok _ => (shared, [])
  | Except.error e =>
      ({ shared with lastError := "Streaming error: " ++ e },
       [Event.InjectionDone])

/-- C3 (counterexample): a server `error` frame received while Streaming is
*not* raised as a portal-class failure.  Processing the frame makes
`run_streaming_session` return `Err`, but the task wrapper in `run_session`
then records the message into `last_error` and emits `InjectionDone` — not
`Error` — leaving `portal_connected` set; applying that event moves the
state to `Idle`, not to `RecoveringSession`, and no supervisor restart
happens. -/
theorem streaming_error_frame_not_portal_class :
    handleWsEvent ""
        (WsEvent.msg "" { type_ := "error", text := some "invalid audio format" })
        (fun _ => InjectOutcome.ok) =
      StreamStep.failed "Streaming API error: invalid audio format" ∧
    streamingTaskOnResult
        { state := State.Streaming, lastTranscript := "", lastError := "",
          pending_injection := none, portal_connected := true }
        (Except.error "Streaming API error: invalid audio format") =
      ({ state := State.Streaming, lastTranscript := "", lastError :=
           "Streaming error: Streaming API error: invalid audio format",
         pending_injection := none, portal_connected := true },
       [Event.InjectionDone]) ∧
    [Event.InjectionDone] ≠ [Event.Error] ∧
    State.transition State.Streaming Event.InjectionDone = some State.Idle ∧
    some State.Idle ≠ some State.RecoveringSession := by
  refine ⟨by decide, rfl, by decide, by decide, by decide⟩

/-- C3 (amended): a server `error` frame or a WebSocket transport error
makes `run_streaming_session` fail (return `Err`), but the spawned task in
the session loop handles that failure locally: it records
`Streaming error: {message}` into `last_error` and emits `InjectionDone`,
whose transition from `Streaming` (or `Transcribing`) leads back to
`Idle`.  `portal_connected` is untouched and the published state never
becomes `RecoveringSession`; the portal session is not restarted. -/
theorem streaming_error_handling :
    (∀ (acc raw : String) (t : Option String) (inject : String → InjectOutcome),
      handleWsEvent acc (WsEvent.msg raw { type_ := "error", text := t }) inject =
        StreamStep.failed ("Streaming API error: " ++ t.getD raw)) ∧
    (∀ (acc e : String) (inject : String → InjectOutcome),
      handleWsEvent acc (WsEvent.transportError e) inject = StreamStep.failed e) ∧
    (∀ (shared : HubState) (e : String),
      streamingTaskOnResult shared (Except.error e) =
        ({ shared with lastError := "Streaming error: " ++ e },
         [Event.InjectionDone]) ∧
      (streamingTaskOnResult shared (Except.error e)).1.portal_connected =
        shared.portal_connected) ∧
    State.transition State.Streaming Event.InjectionDone = some State.Idle ∧
    State.transition State.Transcribing Event.InjectionDone = some State.Idle := by
  refine ⟨fun acc raw t inject => rfl, fun acc e inject => rfl,
    fun shared e => ⟨rfl, rfl⟩, by decide, by decide⟩

/-! ## Session loop: Activated handling (`src/main.rs` lines 183-220) -/

/-- The key-repeat threshold `REPEAT_THRESHOLD` of `run_session`
(`src/main.rs` line 187): 100 ms, here in nanoseconds, the resolution of
the `Duration` the source compares against. -/
def repeatThresholdNs : Nat := 100000000

/-- What the session loop does with one `Activated` signal. -/
inductive ActivatedAction where
  | ignoreForeign
  | ignoreRepeat
  | stopRecordingCapture
  | stopStreamingCapture
  | startCapture (newState : State)
  | ignoreInvalid
  deriving DecidableEq, Repr

/-- Embedding of the `Some(signal) = activated.next()` branch of the
select loop in `run_session` (`src/main.rs` lines 193-299).  A signal for
a foreign shortcut id is dropped.  While `Recording` or `Streaming`, a
gap of at most `REPEAT_THRESHOLD` since the previous `Activated` is
treated as key repeat and ignored (the `continue` touches nothing but
`last_activated`); a larger gap stops the current capture
(`stop_recording` or `stop_streaming`).  Otherwise the state machine's
`Activated` transition decides whether a capture starts. -/
def handleActivated (currentState : State) (signalId shortcutId : String)
    (gapNs : Nat) : ActivatedAction :=
  if signalId ≠ shortcutId then ActivatedAction.ignoreForeign
  else if currentState = State.Recording ∨ currentState = State.Streaming then
    if gapNs ≤ repeatThresholdNs then ActivatedAction.ignoreRepeat
    else if currentState = State.Recording then ActivatedAction.stopRecordingCapture
    else ActivatedAction.stopStreamingCapture
  else
    match currentState.transition Event.Activated with
    | some s => ActivatedAction.startCapture s
    | none => ActivatedAction.ignoreInvalid

/-- C4: while the daemon is Recording or Streaming, an `Activated` signal
for the bound shortcut id with a gap of at most 100 ms since the previous
`Activated` is ignored as key-repeat noise (no state change, no capture
stop), and a gap strictly greater than 100 ms stops the capture (batch
stop from `Recording`, streaming stop from `Streaming`). -/
theorem activated_repeat_gap_threshold (s : State) (id : String) (gapNs : Nat)
    (h : s = State.Recording ∨ s = State.Streaming) :
    (gapNs ≤ 100000000 → handleActivated s id id gapNs = ActivatedAction.ignoreRepeat) ∧
    (100000000 < gapNs →
      handleActivated s id id gapNs =
        (if s = State.Recording then ActivatedAction.stopRecordingCapture
         else ActivatedAction.stopStreamingCapture)) := by
  constructor
  · intro hle
    simp [handleActivated, h, repeatThresholdNs, hle]
  · intro hgt
    rcases h with h | h <;>
      simp [handleActivated, h, repeatThresholdNs, Nat.not_le.mpr hgt]

/-- Witness for C4 at concrete inputs: a 30 ms gap while Recording is
ignored, and a 250 ms gap while Streaming stops the streaming capture. -/
theorem activated_repeat_gap_threshold_witness :
    handleActivated State.Recording "dictate_hold" "dictate_hold" 30000000 =
      ActivatedAction.ignoreRepeat ∧
    handleActivated State.Streaming "dictate_hold" "dictate_hold" 250000000 =
      ActivatedAction.stopStreamingCapture := by
  constructor
  · exact (activated_repeat_gap_threshold State.Recording "dictate_hold" 30000000
      (Or.inl rfl)).1 (by decide)
  · have h := (activated_repeat_gap_threshold State.Streaming "dictate_hold" 250000000
      (Or.inr rfl)).2 (by decide)
    simpa using h

/-! ## Session loop: stopping a batch recording (`src/main.rs` lines 334-385) -/

/-- Result of one run of `stop_recording`: the hub after all mutations,
the sequence of states published through `update_state` (in order), the
final value of `current_state`, and the text handed to
`injector.enqueue` (if any). -/
structure StopRecordingResult where
  hub : HubState
  publishedStates : List State
  finalState : State
  enqueued : Option String
  deriving DecidableEq, Repr

/-- Embedding of `stop_recording` (`src/main.rs` lines 334-385).  The
outcomes of the effectful calls are parameters: `stopRes` is
`handle.stop()` (yielding the audio path), `transcribeRes` is
`transcriber.transcribe(&audio_path)` (the transcript, already trimmed by
the transcriber), and `enqueueOk` tells whether `injector.enqueue`
succeeded.  The function first publishes `Transcribing`; an empty
transcript publishes `Idle` and neither enqueues nor touches
`last_transcript`; a non-empty transcript is stored as `last_transcript`
and enqueued; every failure records `last_error` and publishes `Idle`. -/
def stop_recording (hub0 : HubState) (stopRes : Except String String)
    (transcribeRes : Except String String) (enqueueOk : Bool) :
    StopRecordingResult :=
  let hub := { hub0 with state := State.Transcribing }
  match stopRes with
  | Except.ok _audioPath =>
    match transcribeRes with
    | Except.ok transcript =>
      if transcript.isEmpty then
        { hub := { hub with state := State.Idle },
          publishedStates := [State.Transcribing, State.Idle],
          finalState := State.Idle, enqueued := none }
      else
        let hub := { hub with lastTranscript := transcript }
        if enqueueOk then
          { hub := hub, publishedStates := [State.Transcribing],
            finalState := State.Transcribing, enqueued := some transcript }
        else
          let hub := { hub with state := State.Idle, lastError := "Failed to enqueue text" }
          { hub := hub,
            publishedStates := [State.Transcribing, State.Idle],
            finalState := State.Idle, enqueued := none }
    | Except.error e =>
      let hub := { hub with state := State.Idle, lastError := "Transcription failed: " ++ e }
      { hub := hub,
        publishedStates := [State.Transcribing, State.Idle],
        finalState := State.Idle, enqueued := none }
  | Except.error e =>
    let hub := { hub with state := State.Idle, lastError := "Failed to stop recording: " ++ e }
    { hub := hub,
      publishedStates := [State.Transcribing, State.Idle],
      finalState := State.Idle, enqueued := none }

/-- C5: if stopping a batch recording succeeds and the transcriber returns
an empty transcript, then nothing is enqueued for injection, the stored
`last_transcript` is unchanged, and the published states are exactly
`Transcribing` then `Idle` — `Injecting` is never entered. -/
theorem empty_transcript_short_circuits (hub : HubState)
    (audioPath transcript : String) (enqueueOk : Bool)
    (hempty : transcript.isEmpty = true) :
    (stop_recording hub (Except.ok audioPath) (Except.ok transcript) enqueueOk).enqueued
        = none ∧
    (stop_recording hub (Except.ok audioPath) (Except.ok transcript) enqueueOk).hub.lastTranscript
        = hub.lastTranscript ∧
    (stop_recording hub (Except.ok audioPath) (Except.ok transcript) enqueueOk).publishedStates
        = [State.Transcribing, State.Idle] ∧
    State.Injecting ∉
      (stop_recording hub (Except.ok audioPath) (Except.ok transcript) enqueueOk).publishedStates := by
  simp [stop_recording, hempty]

/-- Witness for C5 at a concrete input: an empty transcript from a
successful stop leaves `last_transcript` at its prior value and publishes
only `Transcribing` then `Idle`. -/
theorem empty_transcript_short_circuits_witness :
    (stop_recording
        { state := State.Recording, lastTranscript := "earlier",
          lastError := "", pending_injection := none, portal_connected := true }
        (Except.ok "/tmp/voxkey.wav") (Except.ok "") true).enqueued = none ∧
    (stop_recording
        { state := State.Recording, lastTranscript := "earlier",
          lastError := "", pending_injection := none, portal_connected := true }
        (Except.ok "/tmp/voxkey.wav") (Except.ok "") true).hub.lastTranscript = "earlier" ∧
    (stop_recording
        { state := State.Recording, lastTranscript := "earlier",
          lastError := "", pending_injection := none, portal_connected := true }
        (Except.ok "/tmp/voxkey.wav") (Except.ok "") true).publishedStates =
      [State.Transcribing, State.Idle] ∧
    State.Injecting ∉
      (stop_recording
        { state := State.Recording, lastTranscript := "earlier",
          lastError := "", pending_injection := none, portal_connected := true }
        (Except.ok "/tmp/voxkey.wav") (Except.ok "") true).publishedStates := by
  exact empty_transcript_short_circuits
    { state := State.Recording, lastTranscript := "earlier", lastError := "",
      pending_injection := none, portal_connected := true }
    "/tmp/voxkey.wav" "" true (by decide)

/-! ## File-system model

Files are an association list from path to entry (content and permission
mode).  Directories are not modeled: `create_dir_all` cannot fail in this
model and is a no-op on the file map. -/

/-- A file's content and permission mode (as a plain natural, e.g.
`0o600`). -/
structure FileEntry where
  content : String
  mode : Nat
  deriving DecidableEq, Repr

/-- A file system: association list from path to entry, at most one entry
per path. -/
abbrev FileSys := List (String × FileEntry)

/-- Look a path up in the file system. -/
def fsLookup : FileSys → String → Option FileEntry
  | [], _ => none
  | (q, f) :: rest, p => if q = p then some f else fsLookup rest p

/-- Insert or replace the entry of a path. -/
def fsInsert : FileSys → String → FileEntry → FileSys
  | [], p, e => [(p, e)]
  | (q, f) :: rest, p, e =>
    if q = p then (p, e) :: rest else (q, f) :: fsInsert rest p e

/-- Model of `std::fs::remove_file` / `tokio::fs::remove_file`: drop the
path's entry.  Removing an absent path fails in the source, but every
caller only logs that failure, so the model keeps just the resulting file
system. -/
def fsRemove (fs : FileSys) (p : String) : FileSys :=
  fs.filter (fun entry => entry.1 ≠ p)

/-- Model of `std::fs::write`: create or truncate the file.  A fresh file
gets the default creation mode `0o644`; an existing file keeps its mode. -/
def fsWrite (fs : FileSys) (p content : String) : FileSys :=
  match fsLookup fs p with
  | some e => fsInsert fs p { content := content, mode := e.mode }
  | none => fsInsert fs p { content := content, mode := 0o644 }

/-- Model of `std::fs::set_permissions`: update the mode of an existing
file; on an absent path the source call fails and the file system is
unchanged. -/
def set_permissions (fs : FileSys) (p : String) (mode : Nat) : FileSys :=
  match fsLookup fs p with
  | some e => fsInsert fs p { e with mode := mode }
  | none => fs

theorem fsLookup_fsInsert_self (fs : FileSys) (p : String) (e : FileEntry) :
    fsLookup (fsInsert fs p e) p = some e := by
  induction fs with
  | nil => simp [fsInsert, fsLookup]
  | cons hd tl ih =>
    obtain ⟨q, f⟩ := hd
    by_cases h : q = p
    · simp [fsInsert, fsLookup, h]
    · simp [fsInsert, fsLookup, h, ih]

theorem fsLookup_fsRemove_self (fs : FileSys) (p : String) :
    fsLookup (fsRemove fs p) p = none := by
  induction fs with
  | nil => simp [fsRemove, fsLookup]
  | cons hd tl ih =>
    obtain ⟨q, f⟩ := hd
    by_cases h : q = p
    · simp [fsRemove, h] at ih ⊢
      exact ih
    · simp [fsRemove, fsLookup, h] at ih ⊢
      exact ih

/-! ## Restore-token persistence (`src/persistence.rs`) -/

/-- Embedding of `save_restore_token` (`src/persistence.rs` lines 35-46):
ensure the parent directory exists (a no-op in this model), write the
token, then set the file's permissions to `0o600`. -/
def save_restore_token (fs : FileSys) (path token : String) : FileSys :=
  let fs := fsWrite fs path token
  set_permissions fs path 0o600

/-- C8: whenever the restore-token file is written via
`save_restore_token`, the file afterwards holds exactly the token and has
permission mode exactly `0o600`, for every prior file system, path and
token string. -/
theorem save_restore_token_mode_0600 (fs : FileSys) (path token : String) :
    fsLookup (save_restore_token fs path token) path =
      some { content := token, mode := 0o600 } := by
  unfold save_restore_token fsWrite set_permissions
  cases h : fsLookup fs path with
  | none => simp [fsLookup_fsInsert_self]
  | some e => simp [fsLookup_fsInsert_self]

/-- Outcome of `fs::read_to_string` as `load_restore_token` distinguishes
it: the file's content, a `NotFound` error, or any other read error. -/
inductive ReadOutcome where
  | ok (content : String)
  | notFound
  | otherError (msg : String)
  deriving DecidableEq, Repr

/-- What `load_restore_token` produced: the optional token, and whether it
removed the token file. -/
structure LoadTokenResult where
  token : Option String
  removedFile : Bool
  deriving DecidableEq, Repr

/-- Whether a character counts as whitespace for trimming.  Rust's
`str::trim` strips Unicode `White_Space`; this model covers the ASCII
whitespace characters, which is what token files and transcripts
contain. -/
def isWhitespaceChar (c : Char) : Bool :=
  c = ' ' || c = '\t' || c = '\n' || c = '\r'

/-- Model of Rust's `str::trim`: drop whitespace from both ends. -/
def rustTrim (s : String) : String :=
  String.mk (((s.data.dropWhile isWhitespaceChar).reverse.dropWhile
    isWhitespaceChar).reverse)

/-- Embedding of `load_restore_token` (`src/persistence.rs` lines 9-32):
on a successful read the content is trimmed and an empty trimmed token
behaves like an absent file; `NotFound` yields no token; any other read
error removes the (corrupt) file and yields no token. -/
def load_restore_token (r : ReadOutcome) : LoadTokenResult :=
  match r with
  | ReadOutcome.ok content =>
    let token := rustTrim content
    if token.isEmpty then { token := none, removedFile := false }
    else { token := some token, removedFile := false }
  | ReadOutcome.notFound => { token := none, removedFile := false }
  | ReadOutcome.otherError _ => { token := none, removedFile := true }

/-- C9: `load_restore_token` trims the file contents; it returns no token
both when the file does not exist and when the trimmed contents are empty
(without removing anything), returns the trimmed token when it is
non-empty, and on any read error other than not-found removes the file
and returns no token. -/
theorem load_restore_token_spec :
    (∀ content : String, (rustTrim content).isEmpty = false →
      load_restore_token (ReadOutcome.ok content) =
        { token := some (rustTrim content), removedFile := false }) ∧
    (∀ content : String, (rustTrim content).isEmpty = true →
      load_restore_token (ReadOutcome.ok content) =
        { token := none, removedFile := false }) ∧
    load_restore_token ReadOutcome.notFound =
      { token := none, removedFile := false } ∧
    (∀ msg : String, load_restore_token (ReadOutcome.otherError msg) =
      { token := none, removedFile := true }) := by
  refine ⟨fun content h => by simp [load_restore_token, h],
    fun content h => by simp [load_restore_token, h], rfl, fun msg => rfl⟩

/-- Witness for C9 at concrete inputs: a token with surrounding whitespace
is trimmed, a whitespace-only file behaves like an absent one, and a
non-not-found read error removes the file. -/
theorem load_restore_token_spec_witness :
    load_restore_token (ReadOutcome.ok " tok42 ") =
      { token := some "tok42", removedFile := false } ∧
    load_restore_token (ReadOutcome.ok "  ") =
      { token := none, removedFile := false } ∧
    load_restore_token ReadOutcome.notFound =
      { token := none, removedFile := false } ∧
    load_restore_token (ReadOutcome.otherError "permission denied") =
      { token := none, removedFile := true } := by
  refine ⟨?_, ?_, ?_, ?_⟩
  · have h := load_restore_token_spec.1 " tok42 " (by decide)
    simpa using h
  · exact load_restore_token_spec.2.1 "  " (by decide)
  · exact load_restore_token_spec.2.2.1
  · exact load_restore_token_spec.2.2.2 "permission denied"

/-! ## Transcriber dispatcher (`src/transcriber.rs`, `voxkey-ipc/src/lib.rs`) -/

/-- Default batch endpoint `MistralConfig::DEFAULT_ENDPOINT`
(`voxkey-ipc/src/lib.rs` line 114). -/
def MistralConfig.DEFAULT_ENDPOINT : String :=
  "https://api.mistral.ai/v1/audio/transcriptions"

/-- Default realtime endpoint `MistralRealtimeConfig::DEFAULT_ENDPOINT`
(`voxkey-ipc/src/lib.rs` line 119). -/
def MistralRealtimeConfig.DEFAULT_ENDPOINT : String :=
  "wss://api.mistral.ai/v1/audio/transcriptions/realtime"

/-- The URL `transcribe_mistral` POSTs to (`src/transcriber.rs` lines
148-152): the configured endpoint, or the built-in default when the
configured string is empty. -/
def mistralBatchUrl (endpoint : String) : String :=
  if endpoint.isEmpty then MistralConfig.DEFAULT_ENDPOINT else endpoint

/-- The base URL `run_streaming_session` connects to (`src/streaming.rs`
lines 32-36): the configured realtime endpoint, or the built-in default
when the configured string is empty. -/
def streamingBaseUrl (endpoint : String) : String :=
  if endpoint.isEmpty then MistralRealtimeConfig.DEFAULT_ENDPOINT else endpoint

/-- The full WebSocket URL of `run_streaming_session` (`src/streaming.rs`
line 37): the base URL with the model as a query parameter. -/
def streamingUrl (endpoint model : String) : String :=
  streamingBaseUrl endpoint ++ "?model=" ++ model

/-- Which execution provider Parakeet inference uses
(`enum ExecutionProviderChoice` in `voxkey-ipc/src/lib.rs`). -/
inductive ExecutionProviderChoice where
  | Auto
  | Cpu
  | Cuda
  deriving DecidableEq, Repr

/-- The transcription backend variants (`enum Transcriber` in
`src/transcriber.rs`). -/
inductive Transcriber where
  | WhisperCpp (command : String) (args : List String)
  | Mistral (api_key model endpoint : String)
  | MistralRealtime (api_key model : String)
  | Parakeet (model_name : String) (execution_provider : ExecutionProviderChoice)
  deriving DecidableEq, Repr

/-- Embedding of `Transcriber::is_streaming` (`src/transcriber.rs` lines
34-36). -/
def Transcriber.is_streaming : Transcriber → Bool
  | Transcriber.MistralRealtime _ _ => true
  | _ => false

/-- Output of a finished subprocess, as `transcribe_whisper_cpp` reads
it. -/
structure ProcessOutput where
  success : Bool
  stdout : String
  stderr : String
  deriving DecidableEq, Repr

/-- An HTTP response as `transcribe_mistral` reads it. -/
structure HttpResponse where
  status : Nat
  body : String
  deriving DecidableEq, Repr

/-- Outcomes of the external calls a batch transcription makes: spawning
the whisper-cpp command on its resolved arguments, POSTing the multipart
form to a URL, parsing the `text` field out of a JSON body, whether the
Parakeet model directory is complete, and the Parakeet recognizer's
output. -/
structure BackendOps where
  spawn : String → List String → Except String ProcessOutput
  post : String → Except String HttpResponse
  parseText : String → Option String
  parakeetAvailable : Bool
  parakeetInfer : Except String String

/-- Embedding of `transcribe_whisper_cpp` (`src/transcriber.rs` lines
94-133): substitute the audio path for each `{audio_file}` placeholder,
run the command, fail on a non-success exit status, and return the
trimmed stdout. -/
def transcribe_whisper_cpp (command : String) (args : List String)
    (audioPath : String) (spawn : String → List String → Except String ProcessOutput) :
    Except String String :=
  let resolvedArgs := args.map (fun arg => arg.replace "{audio_file}" audioPath)
  match spawn command resolvedArgs with
  | Except.error e => Except.error e
  | Except.ok output =>
    if !output.success then
      Except.error ("Transcription command failed: " ++ output.stderr)
    else
      Except.ok (rustTrim output.stdout)

/-- Embedding of `transcribe_mistral` (`src/transcriber.rs` lines
141-186): POST the file to the configured or default endpoint, fail on a
non-2xx status, parse `text` out of the JSON body, and return it
trimmed. -/
def transcribe_mistral (api_key model endpoint audioPath : String)
    (post : String → Except String HttpResponse)
    (parseText : String → Option String) : Except String String :=
  let url := mistralBatchUrl endpoint
  let _ := api_key
  let _ := model
  let _ := audioPath
  match post url with
  | Except.error e => Except.error e
  | Except.ok response =>
    if !(200 ≤ response.status && response.status < 300) then
      Except.error ("Mistral API error: " ++ response.body)
    else
      match parseText response.body with
      | none => Except.error "Mistral response JSON parse failed"
      | some text => Except.ok (rustTrim text)

/-- Embedding of `transcribe_parakeet` (`src/transcriber.rs` lines
188-261): fail when the model files are not available, otherwise run the
blocking ONNX inference and return its text trimmed. -/
def transcribe_parakeet (model_name : String) (available : Bool)
    (infer : Except String String) : Except String String :=
  if !available then
    Except.error ("Parakeet model " ++ model_name ++ " not found")
  else
    match infer with
    | Except.error e => Except.error e
    | Except.ok text => Except.ok (rustTrim text)

/-- Embedding of `Transcriber::transcribe` (`src/transcriber.rs` lines
63-91): dispatch on the variant to produce the transcription result, then
delete the temporary audio file regardless of the outcome (a deletion
failure is only logged).  The `MistralRealtime` variant is `unreachable!`
in the source — it panics without returning — which the embedding renders
as `none`. -/
def Transcriber.transcribe (t : Transcriber) (audioPath : String)
    (fs : FileSys) (ops : BackendOps) :
    Option (FileSys × Except String String) :=
  let result? : Option (Except String String) :=
    match t with
    | Transcriber.WhisperCpp command args =>
        some (transcribe_whisper_cpp command args audioPath ops.spawn)
    | Transcriber.Mistral api_key model endpoint =>
        some (transcribe_mistral api_key model endpoint audioPath ops.post ops.parseText)
    | Transcriber.MistralRealtime _ _ => none
    | Transcriber.Parakeet model_name _ =>
        some (transcribe_parakeet model_name ops.parakeetAvailable ops.parakeetInfer)
  result?.map (fun result => (fsRemove fs audioPath, result))

/-- C6: for every batch variant (everything except the streaming
`MistralRealtime` one) and every outcome of the external calls, calling
`Transcriber::transcribe` completes with the audio file removed from the
file system, whether the transcription result is a success or a
failure. -/
theorem transcribe_deletes_audio_file (t : Transcriber) (audioPath : String)
    (fs : FileSys) (ops : BackendOps) (h : t.is_streaming = false) :
    ∃ result : Except String String,
      t.transcribe audioPath fs ops = some (fsRemove fs audioPath, result) ∧
      fsLookup (fsRemove fs audioPath) audioPath = none := by
  cases t with
  | WhisperCpp command args =>
      exact ⟨_, rfl, fsLookup_fsRemove_self fs audioPath⟩
  | Mistral api_key model endpoint =>
      exact ⟨_, rfl, fsLookup_fsRemove_self fs audioPath⟩
  | MistralRealtime api_key model => simp [Transcriber.is_streaming] at h
  | Parakeet model_name execution_provider =>
      exact ⟨_, rfl, fsLookup_fsRemove_self fs audioPath⟩

/-- Backend-call outcomes used by the C6 witness: the whisper-cpp command
exits non-zero, so the transcription itself fails while the audio file is
still deleted. -/
def failingOps : BackendOps :=
  { spawn := fun _ _ => Except.ok { success := false, stdout := "", stderr := "boom" },
    post := fun _ => Except.ok { status := 500, body := "" },
    parseText := fun _ => none,
    parakeetAvailable := false,
    parakeetInfer := Except.error "no model" }

/-- Witness for C6 at a concrete input: a failing whisper-cpp run still
deletes the audio file. -/
theorem transcribe_deletes_audio_file_witness :
    ∃ result : Except String String,
      Transcriber.transcribe (Transcriber.WhisperCpp "whisper-cpp" ["{audio_file}"])
          "/tmp/voxkey.wav"
          [("/tmp/voxkey.wav", { content := "RIFF", mode := 0o644 })] failingOps =
        some (fsRemove [("/tmp/voxkey.wav", { content := "RIFF", mode := 0o644 })]
                "/tmp/voxkey.wav", result) ∧
      fsLookup (fsRemove [("/tmp/voxkey.wav", { content := "RIFF", mode := 0o644 })]
                "/tmp/voxkey.wav") "/tmp/voxkey.wav" = none :=
  transcribe_deletes_audio_file
    (Transcriber.WhisperCpp "whisper-cpp" ["{audio_file}"]) "/tmp/voxkey.wav"
    [("/tmp/voxkey.wav", { content := "RIFF", mode := 0o644 })] failingOps rfl

/-- C10: when the configured Mistral endpoint string is empty, the batch
transcriber POSTs to the built-in default endpoint and the realtime
streaming session connects to the built-in default `wss` endpoint (plus
the model query parameter); when the endpoint string is non-empty it is
used verbatim as the base URL. -/
theorem empty_endpoint_uses_defaults :
    mistralBatchUrl "" = "https://api.mistral.ai/v1/audio/transcriptions" ∧
    streamingBaseUrl "" = "wss://api.mistral.ai/v1/audio/transcriptions/realtime" ∧
    (∀ endpoint : String, endpoint.isEmpty = false →
      mistralBatchUrl endpoint = endpoint ∧
      streamingBaseUrl endpoint = endpoint ∧
      ∀ model : String, streamingUrl endpoint model = endpoint ++ "?model=" ++ model) := by
  refine ⟨rfl, rfl, fun endpoint h => ?_⟩
  refine ⟨?_, ?_, fun model => ?_⟩ <;>
    simp [mistralBatchUrl, streamingBaseUrl, streamingUrl, h]

/-- Witness for C10 at a concrete non-empty endpoint: it is used
verbatim. -/
theorem empty_endpoint_uses_defaults_witness :
    mistralBatchUrl "https://example.test/v1/transcribe" =
        "https://example.test/v1/transcribe" ∧
    streamingBaseUrl "https://example.test/v1/transcribe" =
        "https://example.test/v1/transcribe" ∧
    streamingUrl "https://example.test/v1/transcribe" "voxtral-mini" =
        "https://example.test/v1/transcribe" ++ "?model=" ++ "voxtral-mini" := by
  have h := empty_endpoint_uses_defaults.2.2 "https://example.test/v1/transcribe" rfl
  exact ⟨h.1, h.2.1, h.2.2 "voxtral-mini"⟩

/-! ## Configuration (`src/config.rs`, `voxkey-ipc/src/lib.rs`)

The TOML file is modeled one level above raw text: a `TomlConfigDoc` is
the parsed table tree restricted to the fields the two deserializations
(`Config` and `LegacyConfig`) look at, with `Option` marking presence.
The parse functions below reproduce serde's semantics on that tree:
`#[serde(default)]` fields fall back to their default when absent,
fields without a default make the parse fail when absent, and unknown
fields (the legacy bare `command`/`args` under `[transcriber]`) are
ignored by the `Config` parse. -/

/-- `TranscriberProvider` from `voxkey-ipc/src/lib.rs`; serde default is
`WhisperCpp`. -/
inductive TranscriberProvider where
  | WhisperCpp
  | Mistral
  | MistralRealtime
  | Parakeet
  deriving DecidableEq, Repr

structure WhisperCppConfig where
  command : String
  args : List String
  deriving DecidableEq, Repr

structure MistralConfig where
  api_key : String
  model : String
  endpoint : String
  deriving DecidableEq, Repr

structure MistralRealtimeConfig where
  api_key : String
  model : String
  endpoint : String
  deriving DecidableEq, Repr

structure ParakeetConfig where
  model : String
  execution_provider : ExecutionProviderChoice
  deriving DecidableEq, Repr

structure TranscriberConfig where
  provider : TranscriberProvider
  whisper_cpp : WhisperCppConfig
  mistral : MistralConfig
  mistral_realtime : MistralRealtimeConfig
  parakeet : ParakeetConfig
  deriving DecidableEq, Repr

structure ShortcutConfig where
  id : String
  description : String
  trigger : String
  deriving DecidableEq, Repr

structure PersistenceConfig where
  token_path : String
  deriving DecidableEq, Repr

structure AudioConfig where
  sample_rate : Nat
  channels : Nat
  deriving DecidableEq, Repr

structure InjectionConfig where
  typing_delay_ms : Nat
  deriving DecidableEq, Repr

/-- `struct Config` from `src/config.rs`. -/
structure Config where
  shortcut : ShortcutConfig
  transcriber : TranscriberConfig
  injection : InjectionConfig
  persistence : PersistenceConfig
  audio : AudioConfig
  deriving DecidableEq, Repr

/-- The `Default` impls of `voxkey-ipc/src/lib.rs`. -/
def defaultWhisperCppConfig : WhisperCppConfig :=
  { command := "whisper-cpp", args := [] }

def defaultMistralConfig : MistralConfig :=
  { api_key := "", model := "voxtral-mini-2602", endpoint := "" }

def defaultMistralRealtimeConfig : MistralRealtimeConfig :=
  { api_key := "", model := "voxtral-mini-transcribe-realtime-2602", endpoint := "" }

def defaultParakeetConfig : ParakeetConfig :=
  { model := "parakeet-tdt-0.6b-v3", execution_provider := ExecutionProviderChoice.Auto }

def defaultTranscriberConfig : TranscriberConfig :=
  { provider := TranscriberProvider.WhisperCpp,
    whisper_cpp := defaultWhisperCppConfig,
    mistral := defaultMistralConfig,
    mistral_realtime := defaultMistralRealtimeConfig,
    parakeet := defaultParakeetConfig }

/-- The environment values `default_token_path` in `src/config.rs` reads. -/
structure EnvState where
  xdgConfigHome : Option String
  home : Option String
  deriving DecidableEq, Repr

/-- `default_token_path` from `src/config.rs` (lines 59-66). -/
def default_token_path (env : EnvState) : String :=
  let xdg := env.xdgConfigHome.getD ((env.home.getD "~") ++ "/.config")
  xdg ++ "/voxkey/restore_token"

/-! ### The parsed TOML tree -/

structure TomlShortcutSection where
  id : Option String
  description : Option String
  trigger : Option String
  deriving DecidableEq, Repr

structure TomlWhisperCppSection where
  command : Option String
  args : Option (List String)
  deriving DecidableEq, Repr

structure TomlMistralSection where
  api_key : Option String
  model : Option String
  endpoint : Option String
  deriving DecidableEq, Repr

structure TomlParakeetSection where
  model : Option String
  execution_provider : Option ExecutionProviderChoice
  deriving DecidableEq, Repr

/-- The `[transcriber]` table: the provider-based fields plus the legacy
bare `command`/`args` fields of the old schema (unknown to the new
`TranscriberConfig`, read only by `LegacyConfig`). -/
structure TomlTranscriberSection where
  provider : Option TranscriberProvider
  whisper_cpp : Option TomlWhisperCppSection
  mistral : Option TomlMistralSection
  mistral_realtime : Option TomlMistralSection
  parakeet : Option TomlParakeetSection
  command : Option String
  args : Option (List String)
  deriving DecidableEq, Repr

structure TomlInjectionSection where
  typing_delay_ms : Option Nat
  deriving DecidableEq, Repr

structure TomlPersistenceSection where
  token_path : Option String
  deriving DecidableEq, Repr

structure TomlAudioSection where
  sample_rate : Option Nat
  channels : Option Nat
  deriving DecidableEq, Repr

/-- A parsed configuration file. -/
structure TomlConfigDoc where
  shortcut : Option TomlShortcutSection
  transcriber : Option TomlTranscriberSection
  injection : Option TomlInjectionSection
  persistence : Option TomlPersistenceSection
  audio : Option TomlAudioSection
  deriving DecidableEq, Repr

/-! ### Deserialization -/

/-- Serde parse of `WhisperCppConfig`: both fields are required. -/
def parseWhisperCpp (s : TomlWhisperCppSection) : Option WhisperCppConfig :=
  match s.command, s.args with
  | some command, some args => some { command := command, args := args }
  | _, _ => none

/-- Serde parse of `MistralConfig`: `api_key` and `model` are required,
`endpoint` defaults to the empty string. -/
def parseMistral (s : TomlMistralSection) : Option MistralConfig :=
  match s.api_key, s.model with
  | some api_key, some model =>
      some { api_key := api_key, model := model, endpoint := s.endpoint.getD "" }
  | _, _ => none

/-- Serde parse of `MistralRealtimeConfig`: same field layout as
`MistralConfig`. -/
def parseMistralRealtime (s : TomlMistralSection) : Option MistralRealtimeConfig :=
  match s.api_key, s.model with
  | some api_key, some model =>
      some { api_key := api_key, model := model, endpoint := s.endpoint.getD "" }
  | _, _ => none

/-- Serde parse of `ParakeetConfig`: `model` is required,
`execution_provider` defaults to `Auto`. -/
def parseParakeet (s : TomlParakeetSection) : Option ParakeetConfig :=
  match s.model with
  | some model =>
      some { model := model,
             execution_provider := s.execution_provider.getD ExecutionProviderChoice.Auto }
  | none => none

/-- Serde parse of `TranscriberConfig`: every field is
`#[serde(default)]`, so a missing sub-table falls back to its default,
while a present but incomplete sub-table fails; the legacy bare
`command`/`args` fields are unknown fields and are ignored. -/
def parseTranscriberSection (s : TomlTranscriberSection) : Option TranscriberConfig := do
  let whisper_cpp ← match s.whisper_cpp with
    | none => some defaultWhisperCppConfig
    | some sub => parseWhisperCpp sub
  let mistral ← match s.mistral with
    | none => some defaultMistralConfig
    | some sub => parseMistral sub
  let mistral_realtime ← match s.mistral_realtime with
    | none => some defaultMistralRealtimeConfig
    | some sub => parseMistralRealtime sub
  let parakeet ← match s.parakeet with
    | none => some defaultParakeetConfig
    | some sub => parseParakeet sub
  some { provider := s.provider.getD TranscriberProvider.WhisperCpp,
         whisper_cpp := whisper_cpp, mistral := mistral,
         mistral_realtime := mistral_realtime, parakeet := parakeet }

/-- Serde parse of `ShortcutConfig`: every field has a default
function. -/
def parseShortcutSection (s : TomlShortcutSection) : ShortcutConfig :=
  { id := s.id.getD "dictate_hold",
    description := s.description.getD "Dictate",
    trigger := s.trigger.getD "<Super>space" }

def parseInjectionSection (s : TomlInjectionSection) : InjectionConfig :=
  { typing_delay_ms := s.typing_delay_ms.getD 5 }

def parsePersistenceSection (env : EnvState) (s : TomlPersistenceSection) :
    PersistenceConfig :=
  { token_path := s.token_path.getD (default_token_path env) }

def parseAudioSection (s : TomlAudioSection) : AudioConfig :=
  { sample_rate := s.sample_rate.getD 16000, channels := s.channels.getD 1 }

/-- Serde parse of `Config` (`toml::from_str::<Config>` in
`load_from_str`): every section is `#[serde(default)]`. -/
def parseConfig (env : EnvState) (doc : TomlConfigDoc) : Option Config := do
  let transcriber ← match doc.transcriber with
    | none => some defaultTranscriberConfig
    | some s => parseTranscriberSection s
  some { shortcut := parseShortcutSection (doc.shortcut.getD ⟨none, none, none⟩),
         transcriber := transcriber,
         injection := parseInjectionSection (doc.injection.getD ⟨none⟩),
         persistence := parsePersistenceSection env (doc.persistence.getD ⟨none⟩),
         audio := parseAudioSection (doc.audio.getD ⟨none, none⟩) }

/-- `struct LegacyTranscriberFields` from `src/config.rs`. -/
structure LegacyTranscriberFields where
  command : Option String
  args : Option (List String)
  deriving DecidableEq, Repr

/-- The `LegacyConfig` deserialization of `load_from_str`: only the
optional bare `command`/`args` fields under `[transcriber]` are read; it
never fails on a well-formed table. -/
def parseLegacyConfig (doc : TomlConfigDoc) : Option LegacyTranscriberFields :=
  doc.transcriber.map (fun t => { command := t.command, args := t.args })

/-- Embedding of `Config::load_from_str` (`src/config.rs` lines 143-166):
parse the document as `Config`, then, if the legacy bare `command`/`args`
fields are present under `[transcriber]`, move them into
`transcriber.whisper_cpp`. -/
def load_from_str (env : EnvState) (doc : TomlConfigDoc) : Option Config :=
  (parseConfig env doc).map (fun config =>
    match parseLegacyConfig doc with
    | none => config
    | some legacy =>
      if legacy.command.isSome || legacy.args.isSome then
        let config := match legacy.command with
          | some cmd =>
            { config with transcriber :=
                { config.transcriber with whisper_cpp :=
                    { config.transcriber.whisper_cpp with command := cmd } } }
          | none => config
        match legacy.args with
        | some args =>
          { config with transcriber :=
              { config.transcriber with whisper_cpp :=
                  { config.transcriber.whisper_cpp with args := args } } }
        | none => config
      else config)

/-- C7: loading a configuration whose `[transcriber]` section carries the
legacy bare `command` and `args` fields produces the plainly-parsed
config with `transcriber.whisper_cpp.command` and
`transcriber.whisper_cpp.args` replaced by the old bare values; every
other field — the whole shortcut, injection, persistence and audio
sections, and the other transcriber sub-sections — is exactly the plain
parse's value. -/
theorem legacy_config_migration (env : EnvState) (doc : TomlConfigDoc)
    (t : TomlTranscriberSection) (cmd : String) (args : List String) (cfg : Config)
    (ht : doc.transcriber = some t) (hc : t.command = some cmd)
    (ha : t.args = some args) (hp : parseConfig env doc = some cfg) :
    load_from_str env doc =
      some { cfg with transcriber :=
              { cfg.transcriber with whisper_cpp := { command := cmd, args := args } } } := by
  simp [load_from_str, hp, parseLegacyConfig, ht, hc, ha]

/-- The document of the source's own migration test
`load_old_format_migrates_command_and_args`: a `[transcriber]` table with
only the legacy bare fields. -/
def legacyDoc : TomlConfigDoc :=
  { shortcut := none,
    transcriber := some
      { provider := none, whisper_cpp := none, mistral := none,
        mistral_realtime := none, parakeet := none,
        command := some "/usr/local/bin/my-whisper",
        args := some ["-m", "model.bin", "{audio_file}"] },
    injection := none, persistence := none, audio := none }

/-- Witness for C7 on `legacyDoc` with an empty environment: the bare
values land in `whisper_cpp` and everything else is the default parse. -/
theorem legacy_config_migration_witness :
    load_from_str { xdgConfigHome := none, home := none } legacyDoc =
      some { shortcut := { id := "dictate_hold", description := "Dictate",
                           trigger := "<Super>space" },
             transcriber :=
               { provider := TranscriberProvider.WhisperCpp,
                 whisper_cpp := { command := "/usr/local/bin/my-whisper",
                                  args := ["-m", "model.bin", "{audio_file}"] },
                 mistral := defaultMistralConfig,
                 mistral_realtime := defaultMistralRealtimeConfig,
                 parakeet := defaultParakeetConfig },
             injection := { typing_delay_ms := 5 },
             persistence := { token_path := "~/.config/voxkey/restore_token" },
             audio := { sample_rate := 16000, channels := 1 } } := by
  have h := legacy_config_migration { xdgConfigHome := none, home := none }
    legacyDoc
    { provider := none, whisper_cpp := none, mistral := none,
      mistral_realtime := none, parakeet := none,
      command := some "/usr/local/bin/my-whisper",
      args := some ["-m", "model.bin", "{audio_file}"] }
    "/usr/local/bin/my-whisper" ["-m", "model.bin", "{audio_file}"]
    { shortcut := { id := "dictate_hold", description := "Dictate",
                    trigger := "<Super>space" },
      transcriber := defaultTranscriberConfig,
      injection := { typing_delay_ms := 5 },
      persistence := { token_path := "~/.config/voxkey/restore_token" },
      audio := { sample_rate := 16000, channels := 1 } }
    rfl rfl rfl (by decide)
  simpa [defaultTranscriberConfig] using h

end Voxkey
